import Mathlib

/-!
# Verification of the `awssso` SSO driver (`awssso/ssodriver.py`)

A shallow embedding of `SSODriver`, the session-handling client that drives a
browser through an AWS SSO portal login, caches cookies on disk, and extracts
the authentication cookie as a token.

The browser and the filesystem are external collaborators; we model what the
driver observes of them: which page elements are located within their waits,
which cookies the session holds, and what the cookie-cache file contains.
Python exceptions become an `Err` error type threaded through `Except`;
`try/except` clauses become matches on the error constructor, catching exactly
the constructors the source names.
-/

namespace AwsSSO

/-- Exceptions the driver can observe or raise. `timeout` is selenium's
`TimeoutException`, `noSuchElement` its `NoSuchElementException`;
`fileNotFound` and `unpickling` are `FileNotFoundError` / `pickle` failures;
`typeError` / `keyError` are Python's errors for subscripting `None` or a
missing dict key; `alertMessage` and `mfaCodeNeeded` are the driver's own
`AlertMessage` and `MFACodeNeeded` (the latter carries the form reference). -/
inductive Err where
  | timeout
  | noSuchElement
  | fileNotFound
  | unpickling
  | typeError
  | keyError
  | alertMessage (msg : String)
  | mfaCodeNeeded (form : Nat)
deriving DecidableEq, Repr

/-- A cookie record as the browser driver hands it out: a dict with `name`,
`value`, `domain`, `path` and an optional `expiry` key. -/
structure Cookie where
  name : String
  value : String
  domain : String
  path : String
  expiry : Option Int
deriving DecidableEq, Repr

/-- What the cookie-cache file may hold: missing (open raises
`FileNotFoundError`), present but undeserializable (`pickle.load` raises), or a
pickled list of cookie records. -/
inductive FileContent where
  | absent
  | corrupt
  | cookies (cs : List Cookie)
deriving DecidableEq, Repr

/-- Embeds `pickle.load(open(self._cookie_file, 'rb'))`: a missing file raises
`FileNotFoundError`, an undeserializable one raises a pickle error, otherwise
the stored cookie list is returned. -/
def pickle_load (fc : FileContent) : Except Err (List Cookie) :=
  match fc with
  | .absent => .error .fileNotFound
  | .corrupt => .error .unpickling
  | .cookies cs => .ok cs

/-- The `del cookie['expiry']` step of `_load_cookies`: drop the `expiry` key
when present (deleting an absent key is skipped by the `'expiry' in cookie`
guard; the result is the same record). -/
def stripExpiry (c : Cookie) : Cookie :=
  { c with expiry := none }

/-- Embeds `SSODriver._load_cookies`: load the pickled cookie list, strip each
record's `expiry`, and inject the records into the browser. The whole body sits
in `try: ... except FileNotFoundError: pass`, so only a missing file is
tolerated (injecting nothing); any other load failure propagates. Returns the
sequence of cookies injected into the session. -/
def load_cookies (fc : FileContent) : Except Err (List Cookie) :=
  match pickle_load fc with
  | .error .fileNotFound => .ok []
  | .error e => .error e
  | .ok cs => .ok (cs.map stripExpiry)

/-- The deny-list of `_dump_cookies`: `exclude = ['x-amz-sso_authn']`. -/
def exclude : List String := ["x-amz-sso_authn"]

/-- Embeds `SSODriver._dump_cookies`: walk the session's cookies and keep every
record whose `name` is not in the deny-list, unchanged; the resulting list is
what `pickle.dump` writes to the cache file. -/
def dump_cookies (session : List Cookie) : List Cookie :=
  session.filter (fun c => !(exclude.contains c.name))

/-- Embeds the cookie-file effect of `SSODriver.close`: when a cookie file is
configured (`self._cookie_file` truthy) the cache file is overwritten with the
dumped cookie list; otherwise the file is untouched. The first argument is the
file's prior content paired with whether a cookie file is configured. -/
def close (configured : Bool) (oldFile : FileContent) (session : List Cookie) :
    FileContent :=
  if configured then .cookies (dump_cookies session) else oldFile

/-- Embeds the cookie-restoring part of `SSODriver.get`: navigate to the portal
URL, then `if self._cookie_file: self._load_cookies()`. `cookieFile` is `none`
when no cookie file is configured. Returns the cookies injected. -/
def get (cookieFile : Option FileContent) : Except Err (List Cookie) :=
  match cookieFile with
  | none => .ok []
  | some fc => load_cookies fc

/-- An observable browser action the driver performs on a located element. -/
inductive UIAction where
  | clear (el : Nat)
  | sendKeys (el : Nat) (text : String)
  | click (el : Nat)
deriving DecidableEq, Repr

/-- A navigation-level browser action of `get_token`. -/
inductive NavAction where
  | navigate (url : String)
  | readCookie (name : String)
  | back
deriving DecidableEq, Repr

/-- The outcome of one of `login`'s outer waits
(`WebDriverWait(...).until(presence_of_element_located((By.ID, ...)))`): when
the element appears within the 1-second wait we get a reference `ref` to it,
together with the outcome of the nested
`find_element_by_css_selector` lookup under it (`inner = none` means that
nested lookup raises `NoSuchElementException`). -/
structure FoundEl where
  ref : Nat
  inner : Option Nat
deriving DecidableEq, Repr

/-- What the login page offers to each of `login`'s four lookups: for each of
the element IDs `username-input`, `username-submit-button`, `password-input`
and `password-submit-button`, either `none` (the 1-second wait times out) or
the located element with its nested css lookup. -/
structure LoginPage where
  usernameInput : Option FoundEl
  usernameSubmitButton : Option FoundEl
  passwordInput : Option FoundEl
  passwordSubmitButton : Option FoundEl
deriving DecidableEq, Repr

/-- An outer `WebDriverWait(...).until(...)` on the login page: raises
`TimeoutException` when the element does not appear within the wait. -/
def waitPresence (el : Option FoundEl) : Except Err FoundEl :=
  match el with
  | none => .error .timeout
  | some e => .ok e

/-- A nested `el.find_element_by_css_selector(...)`: raises
`NoSuchElementException` when the selector matches nothing under `el`. -/
def findInner (e : FoundEl) : Except Err Nat :=
  match e.inner with
  | none => .error .noSuchElement
  | some i => .ok i

/-- One `try: ... except (TimeoutException, NoSuchElementException): pass`
block of `login`: those two exceptions are swallowed, leaving the step's
actions empty; any other error would propagate. -/
def catchStep (x : Except Err (List UIAction)) : Except Err (List UIAction) :=
  match x with
  | .error .timeout => .ok []
  | .error .noSuchElement => .ok []
  | other => other

/-- The username-field step of `login`: wait for `username-input`, find the
nested input, clear it and type the username. -/
def usernameStep (page : LoginPage) (username : String) :
    Except Err (List UIAction) := do
  let w ← waitPresence page.usernameInput
  let el ← findInner w
  .ok [.clear el, .sendKeys el username]

/-- The username-submit step of `login`: wait for `username-submit-button`,
find the nested button, click it. -/
def usernameSubmitStep (page : LoginPage) : Except Err (List UIAction) := do
  let w ← waitPresence page.usernameSubmitButton
  let el ← findInner w
  .ok [.click el]

/-- The password-field step of `login`: wait for `password-input`, find the
nested input, clear it and type the password. -/
def passwordStep (page : LoginPage) (password : String) :
    Except Err (List UIAction) := do
  let w ← waitPresence page.passwordInput
  let el ← findInner w
  .ok [.clear el, .sendKeys el password]

/-- The password-submit step of `login`: wait for `password-submit-button`,
find the nested button, click it. -/
def passwordSubmitStep (page : LoginPage) : Except Err (List UIAction) := do
  let w ← waitPresence page.passwordSubmitButton
  let el ← findInner w
  .ok [.click el]

/-- Embeds `SSODriver.login`: the four best-effort steps in order, each inside
its own `try/except (TimeoutException, NoSuchElementException): pass`. Returns
the concatenated trace of browser actions performed. -/
def login (page : LoginPage) (username password : String) :
    Except Err (List UIAction) := do
  let a1 ← catchStep (usernameStep page username)
  let a2 ← catchStep (usernameSubmitStep page)
  let a3 ← catchStep (passwordStep page password)
  let a4 ← catchStep (passwordSubmitStep page)
  .ok (a1 ++ a2 ++ a3 ++ a4)

/-- What the world offers to the token-extraction flow: whether the
`portal-dashboard` tag appears within `get_token`'s 1-second wait, and the
result of `get_cookie('x-amz-sso_authn')` after re-navigating (`none` when the
browser has no such cookie). -/
structure TokenWorld where
  dashboard : Bool
  authCookie : Option Cookie
deriving DecidableEq, Repr

/-- Embeds `SSODriver.get_token`: wait 1 second for a `portal-dashboard`
element (propagating `TimeoutException` when it does not appear), then
re-navigate to the portal URL, read the `x-amz-sso_authn` cookie, go back in
history when `restore` is set, and return `(cookie['value'], cookie['expiry'])`.
A missing cookie makes the subscription of `None` raise `TypeError`; a cookie
without an `expiry` key raises `KeyError`. On success the navigation trace is
returned alongside the pair. -/
def get_token (w : TokenWorld) (url : String) (restore : Bool) :
    Except Err (List NavAction × String × Int) :=
  if w.dashboard = false then .error .timeout
  else
    let trace : List NavAction :=
      [.navigate url, .readCookie "x-amz-sso_authn"] ++
        (if restore then [.back] else [])
    match w.authCookie with
    | none => .error .typeError
    | some c =>
      match c.expiry with
      | none => .error .keyError
      | some e => .ok (trace, c.value, e)

/-- What `check_alert`'s lookups can observe: `none` when no element with ID
`alertFrame` appears within the 1-second wait; otherwise the frame, holding
the text of the `h4` error-title element and of the `gwt-Label` message
element when those nested css selectors match (`none` for either means the
corresponding `find_element_by_css_selector` raises
`NoSuchElementException`). -/
structure AlertFrame where
  titleText : Option String
  messageText : Option String
deriving DecidableEq, Repr

/-- Embeds `SSODriver.check_alert`: wait 1 second for `alertFrame`; scrape the
error title and message under it and raise `AlertMessage` with
`f'{error}: {message}'`. The `try` catches `TimeoutException` (frame never
appears) and `NoSuchElementException` (a nested selector fails), returning
normally; the raised `AlertMessage` is not caught and propagates. -/
def check_alert (frame : Option AlertFrame) : Except Err Unit :=
  match frame with
  | none => .ok ()
  | some fr =>
    match fr.titleText with
    | none => .ok ()
    | some error =>
      match fr.messageText with
      | none => .ok ()
      | some message => .error (.alertMessage (error ++ ": " ++ message))

/-- Embeds `SSODriver.check_mfa`: wait 1 second for any `form` tag; when one
appears, raise `MFACodeNeeded` carrying it; the `try` catches only
`TimeoutException`, returning normally when no form appears. -/
def check_mfa (form : Option Nat) : Except Err Unit :=
  match form with
  | none => .ok ()
  | some f => .error (.mfaCodeNeeded f)

/-- Everything `refresh_token`'s flow observes of its collaborators. -/
structure World where
  cookieFile : Option FileContent
  page : LoginPage
  token : TokenWorld
  alertFrame : Option AlertFrame
  mfaForm : Option Nat
deriving DecidableEq, Repr

/-- Embeds `SSODriver.refresh_token`: `get()` then `login()` then `get_token`;
a `TimeoutException` from `get_token` is caught and classified by
`check_alert()` then `check_mfa()` — if neither raises, the Python function
falls off the end of the `except` block and returns `None`, modelled as
`.ok none`; a successful `get_token` yields `.ok (some (value, expiry))`. -/
def refresh_token (w : World) (url username password : String)
    (restore : Bool) : Except Err (Option (String × Int)) := do
  let _ ← get w.cookieFile
  let _ ← login w.page username password
  match get_token w.token url restore with
  | .ok (_, v, e) => .ok (some (v, e))
  | .error .timeout => do
    let _ ← check_alert w.alertFrame
    let _ ← check_mfa w.mfaForm
    .ok none
  | .error e => .error e

/-- What `send_mfa`'s two lookups under the MFA form can observe: a reference
to the numeric code input (`input.awsui-input-type-number`) and to the primary
sign-in button (`button.awsui-button-variant-primary`), or `none` when the
corresponding `_find_element_by_css_selector` wait times out. -/
structure MFAFormEls where
  codeInput : Option Nat
  signinButton : Option Nat
deriving DecidableEq, Repr

/-- Embeds `SSODriver._find_element_by_css_selector`: a
`WebDriverWait(...).until(visibility_of_element_located(...))` that raises
`TimeoutException` when the element never becomes visible within the wait. -/
def find_element_by_css_selector (el : Option Nat) : Except Err Nat :=
  match el with
  | none => .error .timeout
  | some e => .ok e

/-- Embeds `SSODriver.send_mfa`: locate the code field and the primary button
inside the given form (each via `_find_element_by_css_selector`, whose
`WebDriverWait` raises `TimeoutException` when nothing appears), then clear
the field, type the code, and click the button. The `trusted_device` parameter
is accepted (defaulting to `True` in the source) and appears nowhere in the
body. -/
def send_mfa (mfa_form : MFAFormEls) (mfacode : String)
    (trusted_device : Bool) : Except Err (List UIAction) := do
  let el_mfacode ← find_element_by_css_selector mfa_form.codeInput
  let el_signin ← find_element_by_css_selector mfa_form.signinButton
  .ok [.clear el_mfacode, .sendKeys el_mfacode mfacode, .click el_signin]

/-!
## SHA-256 (`hashlib.sha256(...).hexdigest()`)

`SSODriver.hash` delegates to `hashlib.sha256`; we embed that collaborator as
the FIPS 180-4 SHA-256 algorithm over byte lists, with 32-bit words as `Nat`
reduced modulo `2 ^ 32`, followed by the lowercase hex rendering `hexdigest`
performs. Strings are first encoded to UTF-8 bytes as `str.encode()` does.
-/

namespace SHA256

/-- Right rotation of a 32-bit word (word already below `2 ^ 32`). -/
def rotr (n x : Nat) : Nat :=
  ((x >>> n) ||| (x <<< (32 - n))) % 2 ^ 32

/-- The SHA-256 `Ch` function: `(x AND y) XOR ((NOT x) AND z)` on 32 bits. -/
def ch (x y z : Nat) : Nat :=
  (x &&& y) ^^^ ((x ^^^ 0xffffffff) &&& z)

/-- The SHA-256 `Maj` function. -/
def maj (x y z : Nat) : Nat :=
  (x &&& y) ^^^ (x &&& z) ^^^ (y &&& z)

/-- The big Sigma-0 compression function. -/
def bigS0 (x : Nat) : Nat := rotr 2 x ^^^ rotr 13 x ^^^ rotr 22 x

/-- The big Sigma-1 compression function. -/
def bigS1 (x : Nat) : Nat := rotr 6 x ^^^ rotr 11 x ^^^ rotr 25 x

/-- The small sigma-0 message-schedule function. -/
def smallS0 (x : Nat) : Nat := rotr 7 x ^^^ rotr 18 x ^^^ (x >>> 3)

/-- The small sigma-1 message-schedule function. -/
def smallS1 (x : Nat) : Nat := rotr 17 x ^^^ rotr 19 x ^^^ (x >>> 10)

/-- The 64 SHA-256 round constants of FIPS 180-4, written in decimal. -/
def K : List Nat :=
  [1116352408, 1899447441, 3049323471, 3921009573, 961987163,
   1508970993, 2453635748, 2870763221, 3624381080, 310598401,
   607225278, 1426881987, 1925078388, 2162078206, 2614888103,
   3248222580, 3835390401, 4022224774, 264347078, 604807628,
   770255983, 1249150122, 1555081692, 1996064986, 2554220882,
   2821834349, 2952996808, 3210313671, 3336571891, 3584528711,
   113926993, 338241895, 666307205, 773529912, 1294757372,
   1396182291, 1695183700, 1986661051, 2177026350, 2456956037,
   2730485921, 2820302411, 3259730800, 3345764771, 3516065817,
   3600352804, 4094571909, 275423344, 430227734, 506948616,
   659060556, 883997877, 958139571, 1322822218, 1537002063,
   1747873779, 1955562222, 2024104815, 2227730452, 2361852424,
   2428436474, 2756734187, 3204031479, 3329325298]

/-- The SHA-256 initial hash value of FIPS 180-4, written in decimal. -/
def H0 : List Nat :=
  [1779033703, 3144134277, 1013904242, 2773480762,
   1359893119, 2600822924, 528734635, 1541459225]

/-- Extend a 16-word message block by `n` further schedule words:
`W[i] = s1(W[i-2]) + W[i-7] + s0(W[i-15]) + W[i-16] mod 2 ^ 32`. -/
def extendSchedule : Nat → List Nat → List Nat
  | 0, ws => ws
  | n + 1, ws =>
    let i := ws.length
    let w := (smallS1 (ws.getD (i - 2) 0) + ws.getD (i - 7) 0 +
              smallS0 (ws.getD (i - 15) 0) + ws.getD (i - 16) 0) % 2 ^ 32
    extendSchedule n (ws ++ [w])

/-- One SHA-256 compression round on the eight working variables. -/
def round (st : Nat × Nat × Nat × Nat × Nat × Nat × Nat × Nat)
    (kw : Nat × Nat) : Nat × Nat × Nat × Nat × Nat × Nat × Nat × Nat :=
  match st, kw with
  | (a, b, c, d, e, f, g, h), (k, w) =>
    let t1 := (h + bigS1 e + ch e f g + k + w) % 2 ^ 32
    let t2 := (bigS0 a + maj a b c) % 2 ^ 32
    ((t1 + t2) % 2 ^ 32, a, b, c, (d + t1) % 2 ^ 32, e, f, g)

/-- Process one 512-bit block (given as its 16 big-endian words) into the
running hash value. -/
def processBlock (h : List Nat) (block : List Nat) : List Nat :=
  let ws := extendSchedule 48 block
  let init := (h.getD 0 0, h.getD 1 0, h.getD 2 0, h.getD 3 0,
               h.getD 4 0, h.getD 5 0, h.getD 6 0, h.getD 7 0)
  match (K.zip ws).foldl round init with
  | (a, b, c, d, e, f, g, hh) =>
    [(h.getD 0 0 + a) % 2 ^ 32, (h.getD 1 0 + b) % 2 ^ 32,
     (h.getD 2 0 + c) % 2 ^ 32, (h.getD 3 0 + d) % 2 ^ 32,
     (h.getD 4 0 + e) % 2 ^ 32, (h.getD 5 0 + f) % 2 ^ 32,
     (h.getD 6 0 + g) % 2 ^ 32, (h.getD 7 0 + hh) % 2 ^ 32]

/-- The length field of the padding: the bit length of the message as 8
big-endian bytes. -/
def lengthBytes (byteLen : Nat) : List Nat :=
  let L := 8 * byteLen
  [(L / 2 ^ 56) % 256, (L / 2 ^ 48) % 256, (L / 2 ^ 40) % 256,
   (L / 2 ^ 32) % 256, (L / 2 ^ 24) % 256, (L / 2 ^ 16) % 256,
   (L / 2 ^ 8) % 256, L % 256]

/-- SHA-256 padding: append `0x80`, zero bytes up to 56 mod 64, then the
64-bit big-endian bit length. -/
def pad (msg : List Nat) : List Nat :=
  let zeros := (64 - (msg.length + 9) % 64) % 64
  msg ++ [0x80] ++ List.replicate zeros 0 ++ lengthBytes msg.length

/-- Split a byte list into 64-byte chunks. -/
def chunks64 : List Nat → List (List Nat)
  | [] => []
  | b :: rest => ((b :: rest).take 64) :: chunks64 ((b :: rest).drop 64)
termination_by l => l.length
decreasing_by simp [List.length_drop]; omega

/-- Group bytes four at a time into big-endian 32-bit words. -/
def bytesToWords : List Nat → List Nat
  | b0 :: b1 :: b2 :: b3 :: rest =>
    (b0 * 2 ^ 24 + b1 * 2 ^ 16 + b2 * 2 ^ 8 + b3) :: bytesToWords rest
  | _ => []

/-- Split a 32-bit word into its four big-endian bytes. -/
def wordBytes (w : Nat) : List Nat :=
  [(w / 2 ^ 24) % 256, (w / 2 ^ 16) % 256, (w / 2 ^ 8) % 256, w % 256]

/-- SHA-256 of a byte list: pad, process each 64-byte chunk, and emit the
final eight words as 32 big-endian digest bytes. -/
def sha256 (msg : List Nat) : List Nat :=
  let final := (chunks64 (pad msg)).foldl
    (fun h blk => processBlock h (bytesToWords blk)) H0
  (final.map wordBytes).flatten

/-- A lowercase hex digit for a value below 16. -/
def hexDigit (n : Nat) : Char :=
  if n < 10 then Char.ofNat (48 + n) else Char.ofNat (87 + n)

/-- The two lowercase hex digits of one byte. -/
def byteHex (b : Nat) : List Char := [hexDigit (b / 16), hexDigit (b % 16)]

/-- The character sequence of `hexdigest`: each digest byte as two lowercase
hex digits. -/
def hexChars (bs : List Nat) : List Char := (bs.map byteHex).flatten

/-- The `hexdigest()` rendering of a digest. -/
def hexdigest (bs : List Nat) : String := String.mk (hexChars bs)

/-- UTF-8 encoding of one character (`str.encode()` uses UTF-8). -/
def utf8EncodeChar (c : Char) : List Nat :=
  let n := c.toNat
  if n < 0x80 then [n]
  else if n < 0x800 then
    [0xc0 ||| (n >>> 6), 0x80 ||| (n &&& 0x3f)]
  else if n < 0x10000 then
    [0xe0 ||| (n >>> 12), 0x80 ||| ((n >>> 6) &&& 0x3f), 0x80 ||| (n &&& 0x3f)]
  else
    [0xf0 ||| (n >>> 18), 0x80 ||| ((n >>> 12) &&& 0x3f),
     0x80 ||| ((n >>> 6) &&& 0x3f), 0x80 ||| (n &&& 0x3f)]

/-- UTF-8 encoding of a string, as `str.encode()` produces it. -/
def utf8Encode (s : String) : List Nat := (s.data.map utf8EncodeChar).flatten

end SHA256

/-- Embeds the static method `SSODriver.hash`:
`sha256(s.encode()).hexdigest()`. -/
def SSODriver.hash (s : String) : String :=
  SHA256.hexdigest (SHA256.sha256 (SHA256.utf8Encode s))

/-- The cookie-cache key computed in `SSODriver.__init__`:
`SSODriver.hash(f'{username}@{url}')`. -/
def cookieHash (username url : String) : String :=
  SSODriver.hash (username ++ "@" ++ url)

/-- The cookie-file path computed in `SSODriver.__init__`:
`f'{cookie_dir}/{self._cookie_hash}.pkl' if cookie_dir else None` — an empty
`cookie_dir` string is falsy in Python, so it too yields `None`. -/
def cookieFilePath (cookie_dir : Option String) (username url : String) :
    Option String :=
  match cookie_dir with
  | some d =>
    if d.length ≠ 0 then some (d ++ "/" ++ cookieHash username url ++ ".pkl")
    else none
  | none => none

/-!
## Derived views and helper lemmas
-/

/-- The actions a `login` step performs, as a function of what its lookups
find: nothing when the outer wait times out or the nested selector fails,
otherwise the actions on the nested element. -/
def optActs (el : Option FoundEl) (k : Nat → List UIAction) : List UIAction :=
  match el with
  | none => []
  | some e =>
    match e.inner with
    | none => []
    | some i => k i

/-- What `check_alert` can scrape: the joined `"title: message"` when the
frame and both nested text elements are present, nothing otherwise. -/
def scrapedAlert : Option AlertFrame → Option String
  | some ⟨some t, some m⟩ => some (t ++ ": " ++ m)
  | _ => none

theorem ok_bind {α β : Type} (a : α) (f : α → Except Err β) :
    (Except.ok a : Except Err α) >>= f = f a := rfl

theorem error_bind {α β : Type} (e : Err) (f : α → Except Err β) :
    (Except.error e : Except Err α) >>= f = Except.error e := rfl

theorem catch_usernameStep (page : LoginPage) (u : String) :
    catchStep (usernameStep page u) =
      .ok (optActs page.usernameInput fun i => [.clear i, .sendKeys i u]) := by
  rcases page with ⟨ui, us, pi, ps⟩
  rcases ui with _ | ⟨r, inner⟩
  · rfl
  · rcases inner with _ | i <;> rfl

theorem catch_usernameSubmitStep (page : LoginPage) :
    catchStep (usernameSubmitStep page) =
      .ok (optActs page.usernameSubmitButton fun i => [.click i]) := by
  rcases page with ⟨ui, us, pi, ps⟩
  rcases us with _ | ⟨r, inner⟩
  · rfl
  · rcases inner with _ | i <;> rfl

theorem catch_passwordStep (page : LoginPage) (pw : String) :
    catchStep (passwordStep page pw) =
      .ok (optActs page.passwordInput fun i => [.clear i, .sendKeys i pw]) := by
  rcases page with ⟨ui, us, pi, ps⟩
  rcases pi with _ | ⟨r, inner⟩
  · rfl
  · rcases inner with _ | i <;> rfl

theorem catch_passwordSubmitStep (page : LoginPage) :
    catchStep (passwordSubmitStep page) =
      .ok (optActs page.passwordSubmitButton fun i => [.click i]) := by
  rcases page with ⟨ui, us, pi, ps⟩
  rcases ps with _ | ⟨r, inner⟩
  · rfl
  · rcases inner with _ | i <;> rfl

theorem login_eq (page : LoginPage) (username password : String) :
    login page username password =
      .ok (optActs page.usernameInput
             (fun i => [.clear i, .sendKeys i username]) ++
           optActs page.usernameSubmitButton (fun i => [.click i]) ++
           optActs page.passwordInput
             (fun i => [.clear i, .sendKeys i password]) ++
           optActs page.passwordSubmitButton (fun i => [.click i])) := by
  simp only [login, catch_usernameStep, catch_usernameSubmitStep,
    catch_passwordStep, catch_passwordSubmitStep, ok_bind]

theorem check_alert_eq (frame : Option AlertFrame) :
    check_alert frame =
      match scrapedAlert frame with
      | some msg => .error (.alertMessage msg)
      | none => .ok () := by
  rcases frame with _ | ⟨t, m⟩
  · rfl
  · rcases t with _ | t
    · rfl
    · rcases m with _ | m <;> rfl

theorem get_ok_of_not_corrupt (cookieFile : Option FileContent)
    (h : cookieFile ≠ some FileContent.corrupt) :
    ∃ cs, get cookieFile = .ok cs := by
  rcases cookieFile with _ | fc
  · exact ⟨[], rfl⟩
  · rcases fc with _ | _ | l
    · exact ⟨[], rfl⟩
    · exact absurd rfl h
    · exact ⟨l.map stripExpiry, rfl⟩

theorem hexDigit_inj :
    ∀ a, a < 16 → ∀ b, b < 16 → SHA256.hexDigit a = SHA256.hexDigit b →
      a = b := by decide

theorem hexChars_cons (a : Nat) (t : List Nat) :
    SHA256.hexChars (a :: t) =
      SHA256.hexDigit (a / 16) :: SHA256.hexDigit (a % 16) ::
        SHA256.hexChars t := rfl

theorem hexChars_inj (bs1 : List Nat) :
    ∀ bs2 : List Nat, (∀ b ∈ bs1, b < 256) → (∀ b ∈ bs2, b < 256) →
      SHA256.hexChars bs1 = SHA256.hexChars bs2 → bs1 = bs2 := by
  induction bs1 with
  | nil =>
    intro bs2 _ _ h
    cases bs2 with
    | nil => rfl
    | cons b t => simp [SHA256.hexChars, SHA256.byteHex] at h
  | cons a t1 ih =>
    intro bs2 h1 h2 h
    cases bs2 with
    | nil => simp [SHA256.hexChars, SHA256.byteHex] at h
    | cons b t2 =>
      rw [hexChars_cons, hexChars_cons] at h
      have ha := h1 a (by simp)
      have hb := h2 b (by simp)
      have e1 : SHA256.hexDigit (a / 16) = SHA256.hexDigit (b / 16) :=
        (List.cons.injEq _ _ _ _ ▸ h).1
      have e23 := (List.cons.injEq _ _ _ _ ▸ h).2
      have e2 : SHA256.hexDigit (a % 16) = SHA256.hexDigit (b % 16) :=
        (List.cons.injEq _ _ _ _ ▸ e23).1
      have e3 : SHA256.hexChars t1 = SHA256.hexChars t2 :=
        (List.cons.injEq _ _ _ _ ▸ e23).2
      have d1 : a / 16 = b / 16 :=
        hexDigit_inj _ (by omega) _ (by omega) e1
      have d2 : a % 16 = b % 16 :=
        hexDigit_inj _ (by omega) _ (by omega) e2
      have ht : t1 = t2 :=
        ih t2 (fun x hx => h1 x (by simp [hx])) (fun x hx => h2 x (by simp [hx])) e3
      have hab : a = b := by omega
      rw [hab, ht]

theorem wordBytes_lt (w : Nat) : ∀ b ∈ SHA256.wordBytes w, b < 256 := by
  intro b hb
  simp [SHA256.wordBytes] at hb
  rcases hb with rfl | rfl | rfl | rfl <;> omega

theorem sha256_bytes_lt (m : List Nat) : ∀ b ∈ SHA256.sha256 m, b < 256 := by
  intro b hb
  simp only [SHA256.sha256, List.mem_flatten, List.mem_map] at hb
  obtain ⟨l, ⟨w, _, hwl⟩, hbl⟩ := hb
  exact wordBytes_lt w b (hwl ▸ hbl)

theorem hexdigest_inj (bs1 bs2 : List Nat) (h1 : ∀ b ∈ bs1, b < 256)
    (h2 : ∀ b ∈ bs2, b < 256)
    (h : SHA256.hexdigest bs1 = SHA256.hexdigest bs2) : bs1 = bs2 :=
  hexChars_inj bs1 bs2 h1 h2 (congrArg String.data h)

/-!
## Concrete fixtures for witnesses and counterexamples
-/

/-- The primary authentication cookie, with an expiry. -/
def cAuth : Cookie :=
  ⟨"x-amz-sso_authn", "tokval", ".awsapps.com", "/", some 1712345678⟩

/-- An ordinary session cookie carrying an expiry. -/
def cOther : Cookie := ⟨"JSESSIONID", "abc", ".example.com", "/", some 1234⟩

/-- An ordinary session cookie without an expiry key. -/
def cNoExp : Cookie := ⟨"prefs", "dark", ".example.com", "/", none⟩

/-- A session holding the authentication cookie plus two others. -/
def sessionEx : List Cookie := [cAuth, cOther, cNoExp]

/-- A login page where every wait times out. -/
def pageNone : LoginPage := ⟨none, none, none, none⟩

/-- A login page exercising all three lookup outcomes: username field fully
present, submit button absent, password field present but its nested selector
failing, password submit fully present. -/
def pageEx : LoginPage :=
  ⟨some ⟨1, some 2⟩, none, some ⟨3, none⟩, some ⟨4, some 5⟩⟩

/-- A world where the dashboard never appears and neither an alert frame nor
a form is present: the silent fall-through of `refresh_token`. -/
def w0 : World := ⟨none, pageNone, ⟨false, none⟩, none, none⟩

/-- A world where the dashboard appears and the authentication cookie is
present. -/
def wTok : World := ⟨some .absent, pageNone, ⟨true, some cAuth⟩, none, none⟩

/-!
## The claims
-/

/-- C1, counterexample: when the dashboard marker does not appear and neither
an alert frame nor a `form` element is present, `refresh_token` raises
nothing at all — it swallows the `TimeoutException`, both checks return
normally, and the Python function falls off the end of the `except` block,
returning `None` rather than raising `AlertMessage` or `MFACodeNeeded`. -/
theorem refresh_token_silent_none :
    w0.token.dashboard = false ∧ w0.alertFrame = none ∧ w0.mfaForm = none ∧
      refresh_token w0 "https://d.awsapps.com/start" "u" "pw" false =
        .ok none :=
  ⟨rfl, rfl, rfl, rfl⟩

/-- C1, amended: provided the configured cookie cache (if any) deserializes
and the authentication cookie is present with an expiry when the dashboard
appears, `refresh_token` returns the cookie's (value, expiry) pair when the
dashboard marker appears before the short timeout; otherwise it raises at
most one of `AlertMessage` (checked first, when the alert frame and both its
texts are present) or `MFACodeNeeded` (when a form is present) — never both
and never a bare timeout — and returns `None` when neither is detected. -/
theorem refresh_token_outcomes (w : World) (url u p : String) (r : Bool)
    (hload : w.cookieFile ≠ some FileContent.corrupt) :
    (∀ c e, w.token.dashboard = true → w.token.authCookie = some c →
      c.expiry = some e →
      refresh_token w url u p r = .ok (some (c.value, e)))
    ∧ (∀ msg, w.token.dashboard = false → scrapedAlert w.alertFrame = some msg →
      refresh_token w url u p r = .error (.alertMessage msg))
    ∧ (∀ f, w.token.dashboard = false → scrapedAlert w.alertFrame = none →
      w.mfaForm = some f →
      refresh_token w url u p r = .error (.mfaCodeNeeded f))
    ∧ (w.token.dashboard = false → scrapedAlert w.alertFrame = none →
      w.mfaForm = none →
      refresh_token w url u p r = .ok none) := by
  obtain ⟨cs, hcs⟩ := get_ok_of_not_corrupt w.cookieFile hload
  refine ⟨?_, ?_, ?_, ?_⟩
  · intro c e hd hc he
    simp [refresh_token, hcs, login_eq, ok_bind, get_token, hd, hc, he]
  · intro msg hd hscr
    simp [refresh_token, hcs, login_eq, ok_bind, get_token, hd,
      check_alert_eq, hscr, error_bind]
  · intro f hd hscr hf
    simp [refresh_token, hcs, login_eq, ok_bind, get_token, hd,
      check_alert_eq, hscr, check_mfa, hf, error_bind]
  · intro hd hscr hf
    simp [refresh_token, hcs, login_eq, ok_bind, get_token, hd,
      check_alert_eq, hscr, check_mfa, hf, error_bind]

/-- C1, witness: in a world whose dashboard appears and whose authentication
cookie is present, `refresh_token` returns the cookie's (value, expiry). -/
theorem refresh_token_outcomes_witness :
    refresh_token wTok "https://d.awsapps.com/start" "u" "pw" false =
      .ok (some ("tokval", 1712345678)) :=
  (refresh_token_outcomes wTok "https://d.awsapps.com/start" "u" "pw" false
    (by decide)).1 cAuth 1712345678 rfl rfl rfl

/-- C2, confirmed: the cookie list `_dump_cookies` writes never contains a
cookie named `x-amz-sso_authn`, every other cookie of the session is written,
and `close` with a configured cookie file overwrites the cache with exactly
that list. -/
theorem dump_cookies_excludes_auth (session : List Cookie)
    (oldFile : FileContent) :
    (∀ c ∈ dump_cookies session, c.name ≠ "x-amz-sso_authn")
    ∧ (∀ c ∈ session, c.name ≠ "x-amz-sso_authn" → c ∈ dump_cookies session)
    ∧ close true oldFile session = .cookies (dump_cookies session) := by
  refine ⟨?_, ?_, rfl⟩
  · intro c hc
    have := List.of_mem_filter hc
    simpa [exclude] using this
  · intro c hc hname
    exact List.mem_filter.2 ⟨hc, by simpa [exclude] using hname⟩

/-- C2, witness: from a session holding the authentication cookie and an
ordinary cookie, the ordinary cookie is written to the cache. -/
theorem dump_cookies_excludes_auth_witness :
    cOther ∈ dump_cookies sessionEx :=
  (dump_cookies_excludes_auth sessionEx .absent).2.1 cOther (by decide)
    (by decide)

/-- C3, counterexample: `_dump_cookies` keeps each persisted record verbatim,
`expiry` included — a session cookie with `expiry = 1234` is written to the
cache still carrying that `expiry` field, contradicting the claim that the
persisted records exclude it. -/
theorem dump_cookies_keeps_expiry :
    cOther ∈ dump_cookies [cOther] ∧ cOther.expiry = some 1234 := by decide

/-- C3, amended: the persisted cookie-cache records are session records
verbatim — name, value, domain, path *and* `expiry` intact; the `expiry`
field is stripped not at dump time but at load time, so the cookies
re-injected by `_load_cookies` carry the re-injection fields with `expiry`
removed. -/
theorem persist_verbatim_strip_on_load (session cs : List Cookie) :
    (∀ c ∈ dump_cookies session, c ∈ session)
    ∧ load_cookies (.cookies cs) = .ok (cs.map stripExpiry)
    ∧ (∀ c ∈ cs.map stripExpiry, c.expiry = none)
    ∧ (∀ c : Cookie, (stripExpiry c).name = c.name ∧
        (stripExpiry c).value = c.value ∧
        (stripExpiry c).domain = c.domain ∧
        (stripExpiry c).path = c.path) := by
  refine ⟨fun c hc => List.mem_of_mem_filter hc, rfl, ?_, fun c => ⟨rfl, rfl, rfl, rfl⟩⟩
  intro c hc
  obtain ⟨d, _, rfl⟩ := List.mem_map.1 hc
  rfl

/-- C3, witness: a dumped record still belongs to the session, and a loaded
record with an expiry comes out stripped. -/
theorem persist_verbatim_strip_on_load_witness :
    cOther ∈ [cOther] ∧ stripExpiry cOther ∈ [cOther].map stripExpiry ∧
      (stripExpiry cOther).expiry = none :=
  ⟨(persist_verbatim_strip_on_load [cOther] [cOther]).1 cOther (by decide),
   by decide,
   (persist_verbatim_strip_on_load [cOther] [cOther]).2.2.1
     (stripExpiry cOther) (by decide)⟩

/-- C4, confirmed: `login` never raises — for every combination of present
and absent elements it returns normally, the steps for the located elements
are performed, and each step's actions depend only on that step's own
element. -/
theorem login_never_raises (page : LoginPage) (username password : String) :
    login page username password =
      .ok (optActs page.usernameInput
             (fun i => [.clear i, .sendKeys i username]) ++
           optActs page.usernameSubmitButton (fun i => [.click i]) ++
           optActs page.passwordInput
             (fun i => [.clear i, .sendKeys i password]) ++
           optActs page.passwordSubmitButton (fun i => [.click i])) :=
  login_eq page username password

/-- C5, confirmed: `get_token` propagates the timeout when the dashboard
marker does not appear; when it does and the authentication cookie is present
with an expiry, it re-navigates to the portal URL, reads the
`x-amz-sso_authn` cookie, navigates back exactly when `restore` is set (after
the read, before returning), and returns the (value, expiry) pair. -/
theorem get_token_spec (w : TokenWorld) (url : String) (restore : Bool) :
    (w.dashboard = false → get_token w url restore = .error .timeout)
    ∧ (∀ c e, w.dashboard = true → w.authCookie = some c →
      c.expiry = some e →
      get_token w url restore =
        .ok ([.navigate url, .readCookie "x-amz-sso_authn"] ++
               (if restore then [.back] else []),
             c.value, e)) := by
  constructor
  · intro hd
    simp [get_token, hd]
  · intro c e hd hc he
    simp [get_token, hd, hc, he]

/-- C5, witness: with the dashboard present, the auth cookie in place and
`restore = true`, `get_token` returns the pair after navigating, reading the
cookie, and going back. -/
theorem get_token_spec_witness :
    get_token ⟨true, some cAuth⟩ "https://d.awsapps.com/start" true =
      .ok ([.navigate "https://d.awsapps.com/start",
            .readCookie "x-amz-sso_authn", .back],
           "tokval", 1712345678) :=
  (get_token_spec ⟨true, some cAuth⟩ "https://d.awsapps.com/start" true).2
    cAuth 1712345678 rfl rfl rfl

/-- C6, counterexample: the alert frame is found, yet `check_alert` returns
normally — the nested title lookup raises `NoSuchElementException`, which the
same `except` clause swallows; the claim that a found frame always leads to
`AlertMessage` fails here. -/
theorem check_alert_frame_without_text :
    check_alert (some ⟨none, some "Try again."⟩) = .ok () := rfl

/-- C6, amended: `check_alert` raises `AlertMessage` with the scraped texts
joined as `"title: message"` exactly when the frame is found *and* both
nested text elements are present; when the frame is not found within the
timeout, or a nested element is missing, it returns normally. -/
theorem check_alert_cases (frame : Option AlertFrame) :
    (frame = none → check_alert frame = .ok ())
    ∧ (∀ t m, frame = some ⟨some t, some m⟩ →
      check_alert frame = .error (.alertMessage (t ++ ": " ++ m)))
    ∧ (∀ fr, frame = some fr →
      fr.titleText = none ∨ fr.messageText = none →
      check_alert frame = .ok ()) := by
  refine ⟨fun h => by simp [h, check_alert], fun t m h => by simp [h, check_alert], ?_⟩
  intro fr h hmiss
  subst h
  rcases fr with ⟨t, m⟩
  rcases hmiss with h | h <;> simp_all [check_alert]
  rcases t with _ | t <;> rfl

/-- C6, witness: the spec's wrong-credentials banner produces an
`AlertMessage` carrying the combined text. -/
theorem check_alert_cases_witness :
    check_alert (some ⟨some "Incorrect username or password.",
        some "Try again."⟩) =
      .error (.alertMessage "Incorrect username or password.: Try again.") :=
  (check_alert_cases (some ⟨some "Incorrect username or password.",
      some "Try again."⟩)).2.1
    "Incorrect username or password." "Try again." rfl

/-- C7, confirmed: loading a cookie list never errors whether or not records
carry an `expiry` field (a record with one is stripped before injection, a
record without one is injected unchanged), and loading a missing cache file
never errors and injects no cookies. -/
theorem load_cookies_tolerant (cs : List Cookie) :
    load_cookies .absent = .ok []
    ∧ load_cookies (.cookies cs) = .ok (cs.map stripExpiry)
    ∧ (∀ c ∈ cs, c.expiry = none → stripExpiry c = c) := by
  refine ⟨rfl, rfl, fun c _ hc => ?_⟩
  rcases c with ⟨n, v, d, p, e⟩
  cases hc
  rfl

/-- C7, witness: a record without `expiry` loads unchanged alongside one with
an `expiry`, and a missing file loads as the empty injection. -/
theorem load_cookies_tolerant_witness :
    load_cookies .absent = .ok [] ∧
      load_cookies (.cookies [cNoExp, cOther]) =
        .ok [cNoExp, stripExpiry cOther] :=
  ⟨(load_cookies_tolerant []).1,
   by
    have h := (load_cookies_tolerant [cNoExp, cOther]).2.1
    have hn := (load_cookies_tolerant [cNoExp, cOther]).2.2 cNoExp
      (by decide) rfl
    rw [h]
    simp [hn]⟩

/-- C8, confirmed: the cookie-cache key is a function of the single string
`username@url` — equal strings give equal keys and equal cache-file paths —
and distinct strings give distinct keys unless the underlying SHA-256
digests themselves collide (equal keys force equal digests, since the hex
rendering is injective on digests). -/
theorem cookie_key_deterministic (u1 url1 u2 url2 : String) :
    (u1 ++ "@" ++ url1 = u2 ++ "@" ++ url2 →
      cookieHash u1 url1 = cookieHash u2 url2 ∧
      ∀ d, cookieFilePath d u1 url1 = cookieFilePath d u2 url2)
    ∧ (cookieHash u1 url1 = cookieHash u2 url2 →
      SHA256.sha256 (SHA256.utf8Encode (u1 ++ "@" ++ url1)) =
        SHA256.sha256 (SHA256.utf8Encode (u2 ++ "@" ++ url2))) := by
  constructor
  · intro h
    constructor
    · simp [cookieHash, SSODriver.hash, h]
    · intro d
      simp [cookieFilePath, cookieHash, SSODriver.hash, h]
  · intro h
    exact hexdigest_inj _ _ (sha256_bytes_lt _) (sha256_bytes_lt _) h

/-- C8, witness: the key depends only on the combined string — `a @ b@c` and
`a@b @ c` produce the same key and the same file path. -/
theorem cookie_key_deterministic_witness :
    cookieHash "a" "b@c" = cookieHash "a@b" "c" ∧
      cookieFilePath (some "/tmp") "a" "b@c" =
        cookieFilePath (some "/tmp") "a@b" "c" :=
  ⟨((cookie_key_deterministic "a" "b@c" "a@b" "c").1 rfl).1,
   ((cookie_key_deterministic "a" "b@c" "a@b" "c").1 rfl).2 (some "/tmp")⟩

/-- C9, confirmed: `send_mfa` is oblivious to `trusted_device` — for every
form, code, and pair of flag values, the located elements, the typed text and
the clicks are identical. -/
theorem send_mfa_ignores_trusted_device (mfa_form : MFAFormEls)
    (mfacode : String) (t1 t2 : Bool) :
    send_mfa mfa_form mfacode t1 = send_mfa mfa_form mfacode t2 := rfl

/-- C10, confirmed: only a missing cache file is tolerated — a file that
exists but cannot be deserialized makes `_load_cookies` fail, the failure
propagates out of `get`, and across all cache contents the load fails
exactly on the corrupt one. -/
theorem corrupt_cache_propagates :
    load_cookies .corrupt = .error .unpickling
    ∧ get (some .corrupt) = .error .unpickling
    ∧ ∀ fc : FileContent,
        ((∃ e, load_cookies fc = .error e) ↔ fc = .corrupt) := by
  refine ⟨rfl, rfl, fun fc => ?_⟩
  rcases fc with _ | _ | cs <;> simp [load_cookies, pickle_load]

end AwsSSO
